import Mathlib

/-!
Verification of the equiCast-awsutils cost-estimation engine and S3 transfer
wrapper against their specification.

The embedding follows the Python sources:
  * `src/equicast_awsutils/cost/s3.py`           (namespace `S3Cost`)
  * `src/equicast_awsutils/cost/code_artifact.py` (namespace `CodeArtifactCost`)
  * `src/equicast_awsutils/s3.py`                (namespace `S3Transfer`)

Python floats are modelled as exact rationals (`ℚ`); the decimal literals of
the pricing tables (0.023, 0.022, 0.021, 0.05, 0.5) are written as the
rationals they denote.  `float('inf')`, the catch-all upper bound of the last
pricing tier, is modelled by `Option`: a bound of `none` stands for +infinity,
so `min remaining (inf - prev) = remaining`.  The filesystem, the process
environment and the remote object store are modelled explicitly as data.
-/

/-- An entry of the modelled local filesystem: a path that exists, whether it
is a regular file (`Path.is_file()`; directories carry `false`), and its
`stat().st_size` in bytes. -/
structure FSEntry where
  path : String
  is_file : Bool
  st_size : ℕ
deriving DecidableEq

/-- The modelled local filesystem: the list of existing paths. -/
structure FileSystem where
  entries : List FSEntry
deriving DecidableEq

/-- Models `Path.exists()`: some entry has this path. -/
def FileSystem.pathExists (fs : FileSystem) (p : String) : Bool :=
  fs.entries.any (fun e => e.path == p)

/-- Models `Path.is_file()`: some entry has this path and is a regular file; a
nonexistent path yields `false`, not an error. -/
def FileSystem.is_file (fs : FileSystem) (p : String) : Bool :=
  fs.entries.any (fun e => e.path == p && e.is_file)

/-- Models `Path(folder).rglob("*")`: every existing entry strictly below the
folder (regular files and directories alike), as paths. -/
def FileSystem.rglob (fs : FileSystem) (folder : String) : List String :=
  (fs.entries.filter (fun e => (folder ++ "/").data.isPrefixOf e.path.data)).map FSEntry.path

/-- Models `Path(p).stat().st_size` for an existing path (the estimators only stat
paths that passed the `is_file` filter, so the `0` default is unreachable). -/
def FileSystem.statSize (fs : FileSystem) (p : String) : ℕ :=
  ((fs.entries.find? (fun e => e.path == p)).map FSEntry.st_size).getD 0

/-- Error taxonomy: `ValueError` raised by the validators is the spec's
`ConfigurationError`; `FileNotFoundError` raised by `_gather_files` is the
spec's `NotFoundError`. -/
inductive CalcError where
  | configError : String → CalcError
  | notFoundError : String → CalcError
deriving DecidableEq

namespace S3Cost

/-- Tier list of `S3._pricing["STANDARD"]`: `(50*1024, 0.023)`,
`(500*1024, 0.022)`, `(inf, 0.021)`.  A bound of `none` is `float('inf')`.
Generic in the field so the same table serves exact evaluation (`ℚ`) and
the topological statement (`ℝ`). -/
def standard_tiers (α : Type) [LinearOrderedField α] : List (Option α × α) :=
  [(some (50 * 1024), 23 / 1000), (some (500 * 1024), 22 / 1000), (none, 21 / 1000)]

/-- The class attribute `S3._pricing`, a one-key dictionary. -/
def s3_pricing (α : Type) [LinearOrderedField α] : List (String × List (Option α × α)) :=
  [("STANDARD", standard_tiers α)]

/-- Loop body of `S3._calculate_cost`: for each `(tier_limit, price_per_gb)`
in order, `tier_gb = min(remaining_gb, tier_limit - previous_limit)`;
`total_cost += tier_gb * price_per_gb`; `remaining_gb -= tier_gb`;
`previous_limit = tier_limit`; break once `remaining_gb <= 0`.
A `none` limit is `float('inf')`, for which `min remaining (inf - prev)`
is `remaining`; in that case `remaining - span = 0`, so the loop always
breaks and the recursive call of the `none` branch is unreachable
(`prev` is passed on unchanged there, standing for the infinite
`previous_limit` Python would carry into an iteration that never happens). -/
def calcCostAux {α : Type} [LinearOrderedField α] :
    List (Option α × α) → α → α → α → α
  | [], _, total_cost, _ => total_cost
  | (tier_limit, price_per_gb) :: rest, remaining_gb, total_cost, previous_limit =>
    let tier_gb := match tier_limit with
      | some b => min remaining_gb (b - previous_limit)
      | none => remaining_gb
    let total_cost' := total_cost + tier_gb * price_per_gb
    let remaining_gb' := remaining_gb - tier_gb
    if remaining_gb' ≤ 0 then total_cost'
    else
      match tier_limit with
      | some b => calcCostAux rest remaining_gb' total_cost' b
      | none => calcCostAux rest remaining_gb' total_cost' previous_limit

/-- Embeds `S3._calculate_cost`: runs the tier loop over
`self._pricing[self.storage_type]` with `remaining_gb = total_gb`,
`total_cost = 0`, `previous_limit = 0`.  The key lookup is total after
`_validate_storage_type`; a missing key is given the empty tier list. -/
def calculate_cost {α : Type} [LinearOrderedField α]
    (storage_type : String) (total_gb : α) : α :=
  calcCostAux (((s3_pricing α).lookup storage_type).getD []) total_gb 0 0

/-- Closed form of the STANDARD graduated cost, used only as a proof
vehicle: the three linear pieces of the tier algorithm. -/
def standardClosedForm {α : Type} [LinearOrderedField α] (c : α) : α :=
  if c ≤ 50 * 1024 then 23 / 1000 * c
  else if c ≤ 500 * 1024 then 50 * 1024 * (23 / 1000) + 22 / 1000 * (c - 50 * 1024)
  else 50 * 1024 * (23 / 1000) + 450 * 1024 * (22 / 1000) + 21 / 1000 * (c - 500 * 1024)

/-- Embeds `S3._validate_region`: any region other than the literal "eu-west-1" is
rejected with a `ValueError` (spec: `ConfigurationError`). -/
def validate_region (region : String) : Option CalcError :=
  if region ≠ "eu-west-1" then
    some (CalcError.configError "Currently only Ireland (eu-west-1) region is supported")
  else none

/-- Embeds `S3._validate_storage_type`: a storage type that is not a key of
`S3._pricing` is rejected with a `ValueError` (spec: `ConfigurationError`). -/
def validate_storage_type (storage_type : String) : Option CalcError :=
  if ¬ ((s3_pricing ℚ).lookup storage_type).isSome then
    some (CalcError.configError ("Storage type " ++ storage_type ++ " is not supported"))
  else none

/-- Embeds `S3._gather_files`.  Python truthiness makes `folder=None` and
`folder=""` both skip the walk, and `files=None` and `files=[]` both skip
the extension.  A truthy folder must exist (`FileNotFoundError`, the spec's
`NotFoundError`, otherwise); its recursive walk contributes every entry
below it; a truthy explicit list is appended verbatim; the candidates are
finally filtered to regular files. -/
def gather_files (fs : FileSystem) (folder : Option String)
    (files : Option (List String)) : Except CalcError (List String) :=
  match
    (match folder with
      | none => Except.ok []
      | some f =>
        if f = "" then Except.ok ([] : List String)
        else if fs.pathExists f then Except.ok (fs.rglob f)
        else Except.error (CalcError.notFoundError ("Folder " ++ f ++ " does not exist")))
  with
  | Except.error e => Except.error e
  | Except.ok from_folder =>
    let from_list : List String := match files with
      | none => []
      | some l => if l.isEmpty then [] else l
    Except.ok ((from_folder ++ from_list).filter (fun p => fs.is_file p))

/-- Embeds `S3._calculate_total_gb`: `sum(f.stat().st_size / (1024 ** 3) for f in
self.all_files)`, each size divided before summing. -/
def calculate_total_gb (fs : FileSystem) (all_files : List String) : ℚ :=
  (all_files.map (fun f => (fs.statSize f : ℚ) / 1024 ^ 3)).sum

/-- Embeds `S3._determine_color_code`: `None` threshold gives no color; otherwise
green below `threshold * 0.5`, yellow from there up to (excluding)
`threshold`, red from `threshold` on. -/
def determine_color_code (total_cost : ℚ) (threshold : Option ℚ) : Option String :=
  match threshold with
  | none => none
  | some t =>
    if total_cost < t * (1 / 2) then some "green"
    else if total_cost < t then some "yellow"
    else some "red"

/-- The process environment read by the report sinks: values of
`GITHUB_OUTPUT` and `GITHUB_STEP_SUMMARY` (absent when unset). -/
structure Env where
  github_output_path : Option String
  github_step_summary_path : Option String
deriving DecidableEq

/-- One record appended to a sink file; string formatting of
`_write_github_output` / `_write_github_summary` is abstracted to the three
metric values written. -/
structure SinkWrite where
  total_gb : ℚ
  total_cost : ℚ
  color_code : Option String
deriving DecidableEq

/-- Constructor fields of the `S3` dataclass in `cost/s3.py`, with its
defaults. -/
structure S3 where
  region : String := "eu-west-1"
  storage_type : String := "STANDARD"
  folder : Option String := none
  files : Option (List String) := none
  threshold : Option ℚ := none
  github_summary : Bool := false
  github_output : Bool := false
deriving DecidableEq

/-- The non-init fields of the dataclass, at their `field(default=...)`
initial values until `calculate` updates them. -/
structure CalcState where
  total_gb : ℚ := 0
  total_cost : ℚ := 0
  color_code : Option String := none
deriving DecidableEq

/-- Embeds `S3._write_github_output`: appends one record when the `github_output`
flag is set and the environment variable is present, else does nothing. -/
def write_github_output (est : S3) (env : Env) (s : CalcState) : List SinkWrite :=
  if est.github_output then
    match env.github_output_path with
    | some _ => [⟨s.total_gb, s.total_cost, s.color_code⟩]
    | none => []
  else []

/-- Embeds `S3._write_github_summary`: appends one record when the `github_summary`
flag is set and the environment variable is present, else does nothing. -/
def write_github_summary (est : S3) (env : Env) (s : CalcState) : List SinkWrite :=
  if est.github_summary then
    match env.github_step_summary_path with
    | some _ => [⟨s.total_gb, s.total_cost, s.color_code⟩]
    | none => []
  else []

/-- Result of one `S3.calculate` run: the object's metric fields, the
records appended to each sink, and the exception if one was raised (a
raised exception leaves the fields at their initial values and performs no
sink write, mirroring the statement order of `calculate`). -/
structure CalcOutcome where
  state : CalcState
  output_writes : List SinkWrite
  summary_writes : List SinkWrite
  error : Option CalcError
deriving DecidableEq

/-- Embeds `S3.calculate`: region validation, storage-type validation, file
gathering, aggregation, pricing, classification, sink writes, in that
order; the first failure aborts the run. -/
def calculate (est : S3) (fs : FileSystem) (env : Env) : CalcOutcome :=
  let s0 : CalcState := ⟨0, 0, none⟩
  match validate_region est.region with
  | some e => ⟨s0, [], [], some e⟩
  | none =>
    match validate_storage_type est.storage_type with
    | some e => ⟨s0, [], [], some e⟩
    | none =>
      match gather_files fs est.folder est.files with
      | Except.error e => ⟨s0, [], [], some e⟩
      | Except.ok all_files =>
        let gb := calculate_total_gb fs all_files
        let cost := calculate_cost est.storage_type gb
        let color := determine_color_code cost est.threshold
        let s : CalcState := ⟨gb, cost, color⟩
        ⟨s, write_github_output est env s, write_github_summary est env s, none⟩

end S3Cost

namespace CodeArtifactCost

/-- The class attribute `CodeArtifact._pricing_per_gb = 0.05`. -/
def pricing_per_gb : ℚ := 5 / 100

/-- Embeds `CodeArtifact._gather_files`, textually identical to
`S3Cost.gather_files`. -/
def gather_files (fs : FileSystem) (folder : Option String)
    (files : Option (List String)) : Except CalcError (List String) :=
  match
    (match folder with
      | none => Except.ok []
      | some f =>
        if f = "" then Except.ok ([] : List String)
        else if fs.pathExists f then Except.ok (fs.rglob f)
        else Except.error (CalcError.notFoundError ("Folder " ++ f ++ " does not exist")))
  with
  | Except.error e => Except.error e
  | Except.ok from_folder =>
    let from_list : List String := match files with
      | none => []
      | some l => if l.isEmpty then [] else l
    Except.ok ((from_folder ++ from_list).filter (fun p => fs.is_file p))

/-- Embeds `CodeArtifact._calculate_total_gb`, textually identical to
`S3Cost.calculate_total_gb`. -/
def calculate_total_gb (fs : FileSystem) (all_files : List String) : ℚ :=
  (all_files.map (fun f => (fs.statSize f : ℚ) / 1024 ^ 3)).sum

/-- Embeds `CodeArtifact._calculate_cost`: `total_gb * self._pricing_per_gb`. -/
def calculate_cost (total_gb : ℚ) : ℚ :=
  total_gb * pricing_per_gb

/-- Embeds `CodeArtifact._determine_color_code`, textually identical to
`S3Cost.determine_color_code`. -/
def determine_color_code (total_cost : ℚ) (threshold : Option ℚ) : Option String :=
  match threshold with
  | none => none
  | some t =>
    if total_cost < t * (1 / 2) then some "green"
    else if total_cost < t then some "yellow"
    else some "red"

end CodeArtifactCost

namespace S3Transfer

/-- One element of the `files` argument of `S3.download_files`:
`{'key': ..., 'mandatory': ...}` with `mandatory` defaulting to `False`. -/
structure FileSpec where
  key : String
  mandatory : Bool
deriving DecidableEq

/-- Model of the remote object store: the bucket listing (for the
`download_all` paginator), and which keys an individual `_download_file`
call succeeds for (it returns `False` on any `ClientError`, e.g. a missing
key). -/
structure Remote where
  listing : List String
  fetchOk : String → Bool

/-- The loop of `S3.download_files` over the explicit file list: a
successful fetch appends the key to `downloaded_files`; a failed fetch of a
mandatory entry appends it to `missing_mandatory`; a failed non-mandatory
fetch is dropped. -/
def download_loop (remote : Remote) :
    List FileSpec → List String → List String → List String × List String
  | [], downloaded_files, missing_mandatory => (downloaded_files, missing_mandatory)
  | f :: rest, downloaded_files, missing_mandatory =>
    if remote.fetchOk f.key then
      download_loop remote rest (downloaded_files ++ [f.key]) missing_mandatory
    else if f.mandatory then
      download_loop remote rest downloaded_files (missing_mandatory ++ [f.key])
    else
      download_loop remote rest downloaded_files missing_mandatory

/-- Embeds `S3.download_files` (the `local_dir` directory creation is I/O with no
bearing on the result).  With `download_all` every listed object is
fetched; with a falsy `files` (None or empty) nothing is; otherwise the
loop runs over all entries and a non-empty `missing_mandatory` raises
`FileNotFoundError` (the spec's `MissingMandatoryResource`) carrying that
list, else the `{downloaded, missing_mandatory}` dict is returned. -/
def download_files (remote : Remote) (_local_dir : String)
    (files : Option (List FileSpec)) (download_all : Bool) :
    Except (List String) (List String × List String) :=
  if download_all then
    Except.ok (remote.listing.filter remote.fetchOk, [])
  else
    match files with
    | none => Except.ok ([], [])
    | some l =>
      if l.isEmpty then Except.ok ([], [])
      else
        let r := download_loop remote l [] []
        if r.2.isEmpty then Except.ok (r.1, r.2) else Except.error r.2

/-- Characterization of the `downloaded_files` list built by the download
loop: the keys of the entries whose fetch succeeds, in order. -/
def successful_keys (remote : Remote) (l : List FileSpec) : List String :=
  (l.filter (fun f => remote.fetchOk f.key)).map FileSpec.key

/-- Characterization of the `missing_mandatory` list built by the download
loop: the keys of the mandatory entries whose fetch fails, in order. -/
def missing_mandatory_keys (remote : Remote) (l : List FileSpec) : List String :=
  (l.filter (fun f => f.mandatory && ! remote.fetchOk f.key)).map FileSpec.key

end S3Transfer

theorem calcCostAux_standard {α : Type} [LinearOrderedField α] (c : α) :
    S3Cost.calcCostAux (S3Cost.standard_tiers α) c 0 0 = S3Cost.standardClosedForm c := by
  rcases le_or_lt c (50 * 1024) with h1 | h1
  · have hmin : min c (50 * 1024 - 0 : α) = c := by
      rw [sub_zero]; exact min_eq_left h1
    simp only [S3Cost.standard_tiers, S3Cost.calcCostAux, hmin, sub_self, le_refl, if_pos,
      S3Cost.standardClosedForm, if_pos h1]
    ring
  · have hmin : min c (50 * 1024 - 0 : α) = 50 * 1024 := by
      rw [sub_zero]; exact min_eq_right h1.le
    have hrem : ¬ (c - 50 * 1024 ≤ 0) := by simp [sub_nonpos]; linarith
    rcases le_or_lt c (500 * 1024) with h2 | h2
    · have hmin2 : min (c - 50 * 1024) (500 * 1024 - 50 * 1024 : α) = c - 50 * 1024 := by
        apply min_eq_left; linarith
      simp only [S3Cost.standard_tiers, S3Cost.calcCostAux, hmin, hrem, if_neg, hmin2, sub_self,
        le_refl, if_pos, S3Cost.standardClosedForm, if_neg (not_le.mpr h1), if_pos h2]
      ring_nf
      simp
    · have hmin2 : min (c - 50 * 1024) (500 * 1024 - 50 * 1024 : α) = 500 * 1024 - 50 * 1024 := by
        apply min_eq_right; linarith
      have hrem2 : ¬ (c - 50 * 1024 - (500 * 1024 - 50 * 1024) ≤ (0 : α)) := by
        intro h; linarith
      simp only [S3Cost.standard_tiers, S3Cost.calcCostAux, hmin, hrem, if_neg, hmin2, hrem2,
        sub_self, le_refl, if_pos, S3Cost.standardClosedForm, if_neg (not_le.mpr h1),
        if_neg (not_le.mpr h2)]
      ring_nf
      simp

theorem calculate_cost_standard {α : Type} [LinearOrderedField α] (c : α) :
    S3Cost.calculate_cost "STANDARD" c = S3Cost.standardClosedForm c := by
  rw [S3Cost.calculate_cost,
    show ((S3Cost.s3_pricing α).lookup "STANDARD").getD [] = S3Cost.standard_tiers α from rfl,
    calcCostAux_standard]

/-- C1: the STANDARD tiered pricing follows the graduated algorithm over the
ordered tier list [(50*1024, 0.023), (500*1024, 0.022), (inf, 0.021)]
(embodied verbatim by `S3Cost.calcCostAux` and `S3Cost.standard_tiers`); in
particular cost(50*1024) = 50*1024*0.023, cost(100*1024) = 50*1024*0.023 +
50*1024*0.022, and cost(600*1024) = 50*1024*0.023 + 450*1024*0.022 +
100*1024*0.021. -/
theorem claim_C1_tiered_cost_graduated :
    S3Cost.standard_tiers ℚ =
      [(some (50 * 1024), 23 / 1000), (some (500 * 1024), 22 / 1000), (none, 21 / 1000)] ∧
    S3Cost.calculate_cost "STANDARD" (50 * 1024 : ℚ) = 50 * 1024 * (23 / 1000) ∧
    S3Cost.calculate_cost "STANDARD" (100 * 1024 : ℚ) =
      50 * 1024 * (23 / 1000) + 50 * 1024 * (22 / 1000) ∧
    S3Cost.calculate_cost "STANDARD" (600 * 1024 : ℚ) =
      50 * 1024 * (23 / 1000) + 450 * 1024 * (22 / 1000) + 100 * 1024 * (21 / 1000) := by
  refine ⟨rfl, ?_, ?_, ?_⟩ <;> rw [calculate_cost_standard] <;>
    rw [S3Cost.standardClosedForm] <;> norm_num

/-- C2: the threshold classifier returns `none` without a threshold, green
strictly below half the threshold, yellow from half the threshold up to but
excluding the threshold, red from the threshold on; with threshold 1, cost 0
is green, cost 0.5 is yellow, cost 1 is red; the CodeArtifact classifier
agrees with the S3 one. -/
theorem claim_C2_threshold_classifier (cost t : ℚ) (_hc : 0 ≤ cost) (ht : 0 < t) :
    S3Cost.determine_color_code cost none = none ∧
    (cost < t * (1 / 2) → S3Cost.determine_color_code cost (some t) = some "green") ∧
    (t * (1 / 2) ≤ cost → cost < t →
      S3Cost.determine_color_code cost (some t) = some "yellow") ∧
    (t ≤ cost → S3Cost.determine_color_code cost (some t) = some "red") ∧
    S3Cost.determine_color_code 0 (some 1) = some "green" ∧
    S3Cost.determine_color_code (1 / 2) (some 1) = some "yellow" ∧
    S3Cost.determine_color_code 1 (some 1) = some "red" ∧
    CodeArtifactCost.determine_color_code cost (some t) =
      S3Cost.determine_color_code cost (some t) ∧
    CodeArtifactCost.determine_color_code cost none = none := by
  refine ⟨rfl, ?_, ?_, ?_, ?_, ?_, ?_, rfl, rfl⟩
  · intro h
    simp only [S3Cost.determine_color_code]
    rw [if_pos h]
  · intro h1 h2
    simp only [S3Cost.determine_color_code]
    rw [if_neg (not_lt.mpr h1), if_pos h2]
  · intro h
    have h1 : ¬ (cost < t * (1 / 2)) := not_lt.mpr (by linarith)
    simp only [S3Cost.determine_color_code]
    rw [if_neg h1, if_neg (not_lt.mpr h)]
  · norm_num [S3Cost.determine_color_code]
  · norm_num [S3Cost.determine_color_code]
  · norm_num [S3Cost.determine_color_code]

theorem claim_C2_threshold_classifier_witness :
    S3Cost.determine_color_code 0 (some 1) = some "green" :=
  (claim_C2_threshold_classifier 0 1 (by norm_num) (by norm_num)).2.2.2.2.1

/-- C8: the flat-rate CodeArtifact pricing is capacity times the single
configured rate 0.05 and is therefore linear. -/
theorem claim_C8_flat_rate_linear (c : ℚ) (_hc : 0 ≤ c) :
    CodeArtifactCost.calculate_cost c = c * CodeArtifactCost.pricing_per_gb ∧
    CodeArtifactCost.pricing_per_gb = 5 / 100 ∧
    (∀ x : ℚ, CodeArtifactCost.calculate_cost (2 * x) =
      2 * CodeArtifactCost.calculate_cost x) := by
  refine ⟨rfl, rfl, fun x => ?_⟩
  rw [CodeArtifactCost.calculate_cost, CodeArtifactCost.calculate_cost]
  ring

theorem claim_C8_flat_rate_linear_witness :
    CodeArtifactCost.calculate_cost 3 = 3 * CodeArtifactCost.pricing_per_gb :=
  (claim_C8_flat_rate_linear 3 (by norm_num)).1

/-- C10: the classifier performs no threshold validation; for every
non-positive threshold (including 0) and non-negative cost both estimators
classify red. -/
theorem claim_C10_nonpositive_threshold_red (cost t : ℚ) (hc : 0 ≤ cost) (ht : t ≤ 0) :
    S3Cost.determine_color_code cost (some t) = some "red" ∧
    CodeArtifactCost.determine_color_code cost (some t) = some "red" := by
  have h1 : ¬ (cost < t * (1 / 2)) := not_lt.mpr (by linarith)
  have h2 : ¬ (cost < t) := not_lt.mpr (le_trans ht hc)
  constructor
  · simp only [S3Cost.determine_color_code]
    rw [if_neg h1, if_neg h2]
  · simp only [CodeArtifactCost.determine_color_code]
    rw [if_neg h1, if_neg h2]

theorem claim_C10_nonpositive_threshold_red_witness :
    S3Cost.determine_color_code 0 (some 0) = some "red" :=
  (claim_C10_nonpositive_threshold_red 0 0 (by norm_num) (by norm_num)).1

theorem sum_sizes_div (fs : FileSystem) (l : List String) :
    (l.map (fun f => (fs.statSize f : ℚ) / 1024 ^ 3)).sum
      = ((l.map fs.statSize).sum : ℚ) / 1024 ^ 3 := by
  induction l with
  | nil => simp
  | cons a t ih =>
    simp only [List.map_cons, List.sum_cons, ih]
    push_cast
    rw [add_div]

/-- C3: the size aggregator of both estimators yields the byte total divided
by 2^30; the empty inventory (no folder, no files) gathers without error,
measures 0 GB and costs 0 under both pricing models. -/
theorem claim_C3_size_aggregator (fs : FileSystem) (files : List String) :
    S3Cost.calculate_total_gb fs files = ((files.map fs.statSize).sum : ℚ) / 2 ^ 30 ∧
    CodeArtifactCost.calculate_total_gb fs files =
      ((files.map fs.statSize).sum : ℚ) / 2 ^ 30 ∧
    S3Cost.gather_files fs none none = Except.ok [] ∧
    CodeArtifactCost.gather_files fs none none = Except.ok [] ∧
    S3Cost.calculate_total_gb fs [] = 0 ∧
    S3Cost.calculate_cost "STANDARD" (0 : ℚ) = 0 ∧
    CodeArtifactCost.calculate_cost 0 = 0 := by
  have h30 : ((1024 : ℚ) ^ 3) = 2 ^ 30 := by norm_num
  refine ⟨?_, ?_, rfl, rfl, by simp [S3Cost.calculate_total_gb], ?_, ?_⟩
  · simp only [S3Cost.calculate_total_gb]
    rw [sum_sizes_div, h30]
  · simp only [CodeArtifactCost.calculate_total_gb]
    rw [sum_sizes_div, h30]
  · rw [calculate_cost_standard, S3Cost.standardClosedForm]
    norm_num
  · rw [CodeArtifactCost.calculate_cost]
    ring

/-- C9: an empty-string folder is falsy in Python, so the collector treats it
exactly like an absent folder and never reaches the existence check: no
`NotFoundError`, only the explicit file list contributes. -/
theorem claim_C9_empty_string_folder (fs : FileSystem) (files : Option (List String)) :
    S3Cost.gather_files fs (some "") files = S3Cost.gather_files fs none files ∧
    (∃ res, S3Cost.gather_files fs (some "") files = Except.ok res) ∧
    CodeArtifactCost.gather_files fs (some "") files =
      CodeArtifactCost.gather_files fs none files := by
  refine ⟨rfl, ?_, rfl⟩
  cases files with
  | none => exact ⟨_, rfl⟩
  | some l => exact ⟨_, rfl⟩

/-- C4: over the STANDARD tier list the graduated cost is non-decreasing in
capacity (for non-negative capacities), continuous in capacity (stated over
`ℝ` for the same generic tier algorithm), and the marginal rates strictly
decrease across tier boundaries: 0.023 > 0.022 > 0.021. -/
theorem claim_C4_tiered_cost_shape :
    (∀ c1 c2 : ℚ, 0 ≤ c1 → c1 ≤ c2 →
      S3Cost.calculate_cost "STANDARD" c1 ≤ S3Cost.calculate_cost "STANDARD" c2) ∧
    Continuous (fun c : ℝ => S3Cost.calculate_cost "STANDARD" c) ∧
    (S3Cost.standard_tiers ℚ).map Prod.snd = [23 / 1000, 22 / 1000, 21 / 1000] ∧
    (23 / 1000 : ℚ) > 22 / 1000 ∧ (22 / 1000 : ℚ) > 21 / 1000 := by
  refine ⟨?_, ?_, rfl, by norm_num, by norm_num⟩
  · intro c1 c2 _ h12
    rw [calculate_cost_standard, calculate_cost_standard, S3Cost.standardClosedForm,
      S3Cost.standardClosedForm]
    split_ifs <;> linarith
  · have hcf : (fun c : ℝ => S3Cost.calculate_cost "STANDARD" c)
        = fun c : ℝ => S3Cost.standardClosedForm c :=
      funext fun c => calculate_cost_standard c
    rw [hcf]
    simp only [S3Cost.standardClosedForm]
    apply Continuous.if_le
    · fun_prop
    · apply Continuous.if_le
      · fun_prop
      · fun_prop
      · exact continuous_id
      · exact continuous_const
      · intro x hx
        rw [hx]
        norm_num
    · exact continuous_id
    · exact continuous_const
    · intro x hx
      rw [hx, if_pos (by norm_num : (50 * 1024 : ℝ) ≤ 500 * 1024)]
      norm_num

theorem claim_C4_tiered_cost_shape_witness :
    S3Cost.calculate_cost "STANDARD" (1 : ℚ) ≤ S3Cost.calculate_cost "STANDARD" 2 :=
  claim_C4_tiered_cost_shape.1 1 2 (by norm_num) (by norm_num)

/-- C5: an invalid region, or (with a valid region) a storage type that is
not a key of the pricing table, makes `calculate` fail with the
corresponding `ConfigurationError` identically for every filesystem and
environment — no folder is walked, no size is read, no sink record is
written, and the metric fields remain at their initial values (0, 0, none). -/
theorem claim_C5_validation_before_io (est : S3Cost.S3) (fs : FileSystem)
    (env : S3Cost.Env) :
    (est.region ≠ "eu-west-1" →
      S3Cost.calculate est fs env =
        ⟨⟨0, 0, none⟩, [], [],
          some (CalcError.configError
            "Currently only Ireland (eu-west-1) region is supported")⟩) ∧
    (est.region = "eu-west-1" → (S3Cost.s3_pricing ℚ).lookup est.storage_type = none →
      S3Cost.calculate est fs env =
        ⟨⟨0, 0, none⟩, [], [],
          some (CalcError.configError
            ("Storage type " ++ est.storage_type ++ " is not supported"))⟩) := by
  constructor
  · intro h
    have hv : S3Cost.validate_region est.region
        = some (CalcError.configError
            "Currently only Ireland (eu-west-1) region is supported") := by
      rw [S3Cost.validate_region, if_pos h]
    simp only [S3Cost.calculate, hv]
  · intro h1 h2
    have hv : S3Cost.validate_region est.region = none := by
      rw [S3Cost.validate_region, if_neg (not_not_intro h1)]
    have hs : S3Cost.validate_storage_type est.storage_type
        = some (CalcError.configError
            ("Storage type " ++ est.storage_type ++ " is not supported")) := by
      rw [S3Cost.validate_storage_type, if_pos (by simp [h2])]
    simp only [S3Cost.calculate, hv, hs]

theorem claim_C5_validation_before_io_witness :
    S3Cost.calculate ⟨"us-east-1", "STANDARD", none, none, none, false, false⟩ ⟨[]⟩
        ⟨none, none⟩
      = ⟨⟨0, 0, none⟩, [], [],
          some (CalcError.configError
            "Currently only Ireland (eu-west-1) region is supported")⟩ :=
  (claim_C5_validation_before_io ⟨"us-east-1", "STANDARD", none, none, none, false, false⟩
    ⟨[]⟩ ⟨none, none⟩).1 (by decide)

/-- C6: the collector deduplicates nothing between its two sources: a
regular file reachable both by the folder walk and through the explicit
list appears in the inventory once per source occurrence, so its size is
summed (and billed) once per occurrence — at least twice in total. -/
theorem claim_C6_no_dedup (fs : FileSystem) (f p : String) (files : List String)
    (hf : ¬ f = "") (hex : fs.pathExists f = true) (hp : fs.is_file p = true)
    (h1 : p ∈ fs.rglob f) (h2 : p ∈ files) :
    ∃ res, S3Cost.gather_files fs (some f) (some files) = Except.ok res ∧
      res.count p = (fs.rglob f).count p + files.count p ∧
      2 ≤ res.count p ∧
      CodeArtifactCost.gather_files fs (some f) (some files) = Except.ok res := by
  have hne : ¬ files.isEmpty := by
    cases files with
    | nil => cases h2
    | cons a t => simp
  refine ⟨(fs.rglob f ++ files).filter (fun q => fs.is_file q), ?_, ?_, ?_, ?_⟩
  · simp [S3Cost.gather_files, hf, hex, hne]
  · rw [List.count_filter]
    · simp [hp, List.count_append]
    · exact hp
  · rw [List.count_filter]
    · have ha : 0 < (fs.rglob f).count p := List.count_pos_iff.mpr h1
      have hb : 0 < files.count p := List.count_pos_iff.mpr h2
      simp only [List.count_append]
      omega
    · exact hp
  · simp [CodeArtifactCost.gather_files, hf, hex, hne]

theorem claim_C6_no_dedup_witness :
    ∃ res,
      S3Cost.gather_files ⟨[⟨"d", false, 0⟩, ⟨"d/a.txt", true, 5⟩]⟩ (some "d")
        (some ["d/a.txt"]) = Except.ok res ∧
      res.count "d/a.txt"
        = ((⟨[⟨"d", false, 0⟩, ⟨"d/a.txt", true, 5⟩]⟩ : FileSystem).rglob "d").count "d/a.txt"
          + (["d/a.txt"]).count "d/a.txt" ∧
      2 ≤ res.count "d/a.txt" ∧
      CodeArtifactCost.gather_files ⟨[⟨"d", false, 0⟩, ⟨"d/a.txt", true, 5⟩]⟩ (some "d")
        (some ["d/a.txt"]) = Except.ok res :=
  claim_C6_no_dedup ⟨[⟨"d", false, 0⟩, ⟨"d/a.txt", true, 5⟩]⟩ "d" "d/a.txt" ["d/a.txt"]
    (by decide) (by decide) (by decide) (by decide) (by decide)

theorem download_loop_eq (remote : S3Transfer.Remote) (l : List S3Transfer.FileSpec)
    (d m : List String) :
    S3Transfer.download_loop remote l d m =
      (d ++ S3Transfer.successful_keys remote l,
        m ++ S3Transfer.missing_mandatory_keys remote l) := by
  induction l generalizing d m with
  | nil =>
    simp [S3Transfer.download_loop, S3Transfer.successful_keys,
      S3Transfer.missing_mandatory_keys]
  | cons f rest ih =>
    by_cases hok : remote.fetchOk f.key
    · simp [S3Transfer.download_loop, hok, ih, S3Transfer.successful_keys,
        S3Transfer.missing_mandatory_keys, List.filter_cons]
    · by_cases hm : f.mandatory
      · simp [S3Transfer.download_loop, hok, hm, ih, S3Transfer.successful_keys,
          S3Transfer.missing_mandatory_keys, List.filter_cons]
      · simp [S3Transfer.download_loop, hok, hm, ih, S3Transfer.successful_keys,
          S3Transfer.missing_mandatory_keys, List.filter_cons]

/-- C7: with a non-empty file list and `download_all = False`, every entry is
attempted; the loop records exactly the successfully fetched keys as
downloaded and exactly the failing mandatory keys as missing; the call
raises (errors) naming exactly the missing mandatory keys if and only if
some mandatory entry fails to fetch, and returns the downloaded list
otherwise; a failing entry that is not mandatory (and whose key no other
entry shares) appears in neither list. -/
theorem claim_C7_download_files_mandatory (remote : S3Transfer.Remote)
    (dir : String) (l : List S3Transfer.FileSpec) (hne : l ≠ []) :
    S3Transfer.download_loop remote l [] []
      = (S3Transfer.successful_keys remote l, S3Transfer.missing_mandatory_keys remote l) ∧
    (S3Transfer.download_files remote dir (some l) false
        = Except.error (S3Transfer.missing_mandatory_keys remote l) ↔
      ∃ f ∈ l, f.mandatory = true ∧ remote.fetchOk f.key = false) ∧
    ((¬ ∃ f ∈ l, f.mandatory = true ∧ remote.fetchOk f.key = false) →
      S3Transfer.missing_mandatory_keys remote l = [] ∧
      S3Transfer.download_files remote dir (some l) false
        = Except.ok (S3Transfer.successful_keys remote l, [])) ∧
    (∀ f ∈ l, f.mandatory = false → remote.fetchOk f.key = false →
      (∀ g ∈ l, g.key = f.key → g = f) →
      f.key ∉ S3Transfer.successful_keys remote l ∧
      f.key ∉ S3Transfer.missing_mandatory_keys remote l) := by
  have hloop := download_loop_eq remote l [] []
  simp only [List.nil_append] at hloop
  have hmiss : (S3Transfer.missing_mandatory_keys remote l = [] ↔
      ¬ ∃ f ∈ l, f.mandatory = true ∧ remote.fetchOk f.key = false) := by
    rw [S3Transfer.missing_mandatory_keys, List.map_eq_nil_iff, List.filter_eq_nil_iff]
    constructor
    · rintro h ⟨f, hf, hm, hok⟩
      exact absurd (by rw [hm, hok]; rfl) (h f hf)
    · intro h f hf
      intro hq
      apply h
      refine ⟨f, hf, ?_, ?_⟩
      · exact (Bool.and_eq_true _ _ ▸ hq).1
      · have := (Bool.and_eq_true _ _ ▸ hq).2
        simpa using this
  have hfiles : S3Transfer.download_files remote dir (some l) false
      = if (S3Transfer.missing_mandatory_keys remote l).isEmpty
        then Except.ok (S3Transfer.successful_keys remote l,
          S3Transfer.missing_mandatory_keys remote l)
        else Except.error (S3Transfer.missing_mandatory_keys remote l) := by
    rw [S3Transfer.download_files]
    simp only [if_neg (by simp : ¬ (false = true))]
    have hle : l.isEmpty = false := by
      cases l with
      | nil => exact absurd rfl hne
      | cons a t => rfl
    simp [hle, hloop]
  refine ⟨hloop, ?_, ?_, ?_⟩
  · constructor
    · intro h
      by_contra hnex
      rw [hfiles, if_pos (List.isEmpty_iff.mpr (hmiss.mpr hnex))] at h
      cases h
    · intro hex
      have hm : ¬ S3Transfer.missing_mandatory_keys remote l = [] := fun h0 =>
        (hmiss.mp h0) hex
      rw [hfiles, if_neg (fun hie => hm (List.isEmpty_iff.mp hie))]
  · intro hnex
    have hm0 : S3Transfer.missing_mandatory_keys remote l = [] := hmiss.mpr hnex
    refine ⟨hm0, ?_⟩
    rw [hfiles, if_pos (List.isEmpty_iff.mpr hm0), hm0]
  · intro f hf hman hok huniq
    constructor
    · intro hmem
      rw [S3Transfer.successful_keys, List.mem_map] at hmem
      obtain ⟨g, hg, hgk⟩ := hmem
      rw [List.mem_filter] at hg
      have hgf : g = f := huniq g hg.1 hgk
      rw [hgf] at hg
      rw [hok] at hg
      cases hg.2
    · intro hmem
      rw [S3Transfer.missing_mandatory_keys, List.mem_map] at hmem
      obtain ⟨g, hg, hgk⟩ := hmem
      rw [List.mem_filter] at hg
      have hgf : g = f := huniq g hg.1 hgk
      rw [hgf, hman] at hg
      have := hg.2
      simp at this

theorem claim_C7_download_files_mandatory_witness :
    S3Transfer.download_files ⟨[], fun k => k == "A"⟩ "dl"
        (some [⟨"A", true⟩, ⟨"B", true⟩]) false
      = Except.error
          (S3Transfer.missing_mandatory_keys ⟨[], fun k => k == "A"⟩
            [⟨"A", true⟩, ⟨"B", true⟩]) :=
  ((claim_C7_download_files_mandatory ⟨[], fun k => k == "A"⟩ "dl"
      [⟨"A", true⟩, ⟨"B", true⟩] (by decide)).2.1).mpr
    ⟨⟨"B", true⟩, by decide, rfl, by decide⟩
